import Mathlib

/-! Verification of the Data_Monitoring_tool repository: a shallow embedding of
the ingestion endpoint (scripts/app.py) and of the alert evaluation engine
(scripts/demo/check_alerts.py), with theorems settling the specified
properties. Timestamps are modelled as exact numbers (minutes); message
strings keep the structure of the Python f-strings but abbreviate their
formatting, which no property below depends on. -/

namespace Monitoring

/-- JSON values as produced by json.loads in check_alerts.py. An object is an
association list whose keys are textually distinct (Python dicts cannot hold
duplicate keys). -/
inductive Json where
  | null : Json
  | bool (b : Bool) : Json
  | num (q : ℚ) : Json
  | str (s : String) : Json
  | arr (elems : List Json) : Json
  | obj (fields : List (String × Json)) : Json

/-- Lookup of a key in a Python dict modelled as an association list
(first binding wins; loaded dicts never repeat a key). -/
def lookupKey (m : List (String × Json)) (k : String) : Option Json :=
  match m with
  | [] => none
  | (k0, v) :: rest => if k0 = k then some v else lookupKey rest k

/-- Assignment d[k] = v of a single key during dict.update: an existing
binding is replaced in place, a new key is appended in insertion order. -/
def setKey (m : List (String × Json)) (k : String) (v : Json) : List (String × Json) :=
  match m with
  | [] => [(k, v)]
  | (k0, v0) :: rest => if k0 = k then (k0, v) :: rest else (k0, v0) :: setKey rest k v

/-- Python dict.update(upd): every binding of upd is assigned into the base
dict, replacing the base's value on every common key. -/
def dictUpdate (base upd : List (String × Json)) : List (String × Json) :=
  match upd with
  | [] => base
  | (k, v) :: rest => dictUpdate (setKey base k v) rest

/-- Parameter merging as performed by check_alerts_for_host (check_alerts.py):
params = json.loads(default_params) if default_params else \x7b\x7d, then
params.update(host_params) when params_json is non-empty. A `none` argument
models a NULL or empty (falsy) JSON column. -/
def mergeParams (default_params params_json : Option (List (String × Json))) :
    List (String × Json) :=
  let params := default_params.getD []
  match params_json with
  | some host_params => dictUpdate params host_params
  | none => params

/-- Merge as the spec words it, for comparison: the override map wins on every
common top-level key, otherwise the default map's binding is used; absent
maps are treated as empty. The override's value is taken wholesale, so
nested objects are replaced, not recursively merged. -/
def specMergedLookup (default_params params_json : Option (List (String × Json)))
    (k : String) : Option Json :=
  match lookupKey (params_json.getD []) k with
  | some v => some v
  | none => lookupKey (default_params.getD []) k

theorem lookupKey_setKey (m : List (String × Json)) (k k0 : String) (v : Json) :
    lookupKey (setKey m k0 v) k = if k0 = k then some v else lookupKey m k := by
  induction m with
  | nil => simp [setKey, lookupKey]
  | cons kv rest ih =>
    obtain ⟨k1, v1⟩ := kv
    by_cases h1 : k1 = k0
    · subst h1
      by_cases h2 : k1 = k <;> simp [setKey, lookupKey, h2]
    · by_cases h2 : k1 = k
      · subst h2
        have : ¬ (k0 = k1) := fun h => h1 h.symm
        simp [setKey, lookupKey, h1, this]
      · simp [setKey, lookupKey, h1, h2, ih]

theorem lookupKey_mem_of_some (m : List (String × Json)) (k : String) (v : Json)
    (h : lookupKey m k = some v) : k ∈ m.map Prod.fst := by
  induction m with
  | nil => simp [lookupKey] at h
  | cons kv rest ih =>
    obtain ⟨k0, v0⟩ := kv
    by_cases h0 : k0 = k
    · simp [h0]
    · simp [lookupKey, h0] at h
      simpa using Or.inr (ih h)

theorem lookupKey_dictUpdate (base upd : List (String × Json)) (k : String)
    (hnd : (upd.map Prod.fst).Nodup) :
    lookupKey (dictUpdate base upd) k =
      match lookupKey upd k with
      | some v => some v
      | none => lookupKey base k := by
  induction upd generalizing base with
  | nil => simp [dictUpdate, lookupKey]
  | cons kv rest ih =>
    obtain ⟨k0, v0⟩ := kv
    simp only [List.map_cons, List.nodup_cons] at hnd
    obtain ⟨hk0, hrest⟩ := hnd
    rw [dictUpdate, ih _ hrest]
    by_cases h : k0 = k
    · subst h
      cases hfind : lookupKey rest k0 with
      | none => simp [lookupKey, lookupKey_setKey]
      | some v =>
        exact absurd (lookupKey_mem_of_some rest k0 v hfind) hk0
    · cases hfind : lookupKey rest k with
      | none => simp [lookupKey, lookupKey_setKey, h, hfind]
      | some v => simp [lookupKey, h, hfind]

/-- One row of the incoming_data table restricted to the columns the alert
check functions read; collected_at is a naive datetime in minutes. -/
structure DataRow where
  collected_at : ℚ
  cpu_pct : Option ℚ
  mem_pct : Option ℚ
  disk_pct : Option ℚ
deriving DecidableEq

/-- Python params.get(key, default) for the numeric parameters the check
functions read (every parameter these checks consume is a JSON number). -/
def getNum (params : List (String × Json)) (k : String) (d : ℚ) : ℚ :=
  match lookupKey params k with
  | some (Json.num q) => q
  | _ => d

/-- Row selected by ORDER BY collected_at DESC LIMIT 1 (latest sample). -/
def latestRow (rows : List DataRow) : Option DataRow :=
  match rows with
  | [] => none
  | r :: rest =>
    match latestRow rest with
    | none => some r
    | some best => if r.collected_at < best.collected_at then some best else some r

/-- MAX(collected_at) over the host's rows, as queried by check_host_online. -/
def maxCollectedAt (rows : List DataRow) : Option ℚ :=
  match rows with
  | [] => none
  | r :: rest =>
    match maxCollectedAt rest with
    | none => some r.collected_at
    | some m => some (max m r.collected_at)

/-- check_host_online from check_alerts.py: triggered when the host has not
reported within offline_threshold_minutes of now, and also triggered (with
message "Host has never reported data") when no sample row exists. -/
def check_host_online (rows : List DataRow) (host_name : String) (now : ℚ)
    (params : List (String × Json)) : Bool × String :=
  let threshold_minutes := getNum params "offline_threshold_minutes" 60
  match maxCollectedAt rows with
  | none => (true, "Host has never reported data")
  | some last_seen =>
    if last_seen < now - threshold_minutes then
      (true, s!"Host {host_name} offline")
    else
      (false, s!"Host {host_name} is online")

/-- check_disk_space from check_alerts.py: triggered when the latest sample's
disk_pct is at least threshold_pct; a missing row or NULL disk_pct yields the
neutral verdict (false, "No disk data available"). -/
def check_disk_space (rows : List DataRow) (host_name : String)
    (params : List (String × Json)) : Bool × String :=
  let threshold_pct := getNum params "threshold_pct" 90
  match latestRow rows with
  | none => (false, "No disk data available")
  | some r =>
    match r.disk_pct with
    | none => (false, "No disk data available")
    | some disk_pct =>
      if threshold_pct ≤ disk_pct then (true, s!"Host {host_name} disk usage critical")
      else (false, s!"Host {host_name} disk usage normal")

/-- check_memory_usage from check_alerts.py, same shape as the disk check. -/
def check_memory_usage (rows : List DataRow) (host_name : String)
    (params : List (String × Json)) : Bool × String :=
  let threshold_pct := getNum params "threshold_pct" 90
  match latestRow rows with
  | none => (false, "No memory data available")
  | some r =>
    match r.mem_pct with
    | none => (false, "No memory data available")
    | some mem_pct =>
      if threshold_pct ≤ mem_pct then (true, s!"Host {host_name} memory usage critical")
      else (false, s!"Host {host_name} memory usage normal")

/-- check_cpu_usage from check_alerts.py, same shape as the disk check. -/
def check_cpu_usage (rows : List DataRow) (host_name : String)
    (params : List (String × Json)) : Bool × String :=
  let threshold_pct := getNum params "threshold_pct" 90
  match latestRow rows with
  | none => (false, "No CPU data available")
  | some r =>
    match r.cpu_pct with
    | none => (false, "No CPU data available")
    | some cpu_pct =>
      if threshold_pct ≤ cpu_pct then (true, s!"Host {host_name} CPU usage critical")
      else (false, s!"Host {host_name} CPU usage normal")

/-- Status values of the alerts table: ENUM('open','acknowledged','resolved').
The first value is named opened because open is a Lean keyword. -/
inductive AlertStatus where
  | opened : AlertStatus
  | acknowledged : AlertStatus
  | resolved : AlertStatus
deriving DecidableEq

/-- One row of the alerts table restricted to the columns the evaluation
engine reads and writes. The store is a list with the newest row first;
triggered_at records NOW() at creation, and since rows are only ever
prepended, list order coincides with ORDER BY triggered_at DESC. -/
structure Alert where
  host_id : Nat
  check_id : Nat
  data_id : Option Nat
  severity : String
  message : String
  status : AlertStatus
  triggered_at : Nat
deriving DecidableEq

/-- WHERE host_id = h AND check_id = c, as a Boolean row predicate. -/
def pairPred (h c : Nat) (a : Alert) : Bool :=
  a.host_id == h && a.check_id == c

/-- Rows of the alerts table for one (host, check) pair, newest first. -/
def pairAlerts (s : List Alert) (h c : Nat) : List Alert :=
  s.filter (pairPred h c)

/-- get_last_alert_state from check_alerts.py: the status of the most recent
alert row for (h, c) (ORDER BY triggered_at DESC LIMIT 1), or none. -/
def get_last_alert_state (s : List Alert) (h c : Nat) : Option AlertStatus :=
  (s.find? (pairPred h c)).map Alert.status

/-- create_alert from check_alerts.py: INSERT a new row with status open and
the given data_id; the Python parameter data_id defaults to None. -/
def create_alert (s : List Alert) (h c : Nat) (sev msg : String) (t : Nat)
    (d : Option Nat := none) : List Alert :=
  { host_id := h, check_id := c, data_id := d, severity := sev, message := msg,
    status := AlertStatus.opened, triggered_at := t } :: s

/-- resolve_alert from check_alerts.py: UPDATE the most recent open row for
(h, c) to resolved, appending a resolution note to its message. -/
def resolve_alert (s : List Alert) (h c : Nat) (msg : String) : List Alert :=
  match s with
  | [] => []
  | a :: rest =>
    if pairPred h c a && a.status == AlertStatus.opened then
      { a with status := AlertStatus.resolved,
               message := a.message ++ " -> RESOLVED: " ++ msg } :: rest
    else a :: resolve_alert rest h c msg

/-- State-transition logic of check_alerts_for_host (check_alerts.py, the
body handling one check): when the verdict is triggered and the last state is
not open, create a new open alert; when it is not triggered and the last
state is open, resolve that alert; otherwise leave the store unchanged. -/
def alertTransition (s : List Alert) (h c : Nat) (sev : String)
    (verdict : Bool × String) (t : Nat) : List Alert :=
  let last_state := get_last_alert_state s h c
  if verdict.1 then
    if last_state ≠ some AlertStatus.opened then create_alert s h c sev verdict.2 t
    else s
  else
    if last_state = some AlertStatus.opened then resolve_alert s h c verdict.2
    else s

/-- Modelled from the spec: the manual, out-of-core acknowledgement operation
(spec section 3: "status acknowledged is a manual, out-of-core operation");
no source file under scripts/ implements it. It sets the status of one
existing alert row (position i, newest first) to acknowledged. -/
def ackAlert (s : List Alert) (i : Nat) : List Alert :=
  match s, i with
  | [], _ => []
  | a :: rest, 0 => { a with status := AlertStatus.acknowledged } :: rest
  | a :: rest, Nat.succ n => a :: ackAlert rest n

/-- Alert stores reachable from the empty alerts table by evaluation-engine
transitions (for arbitrary hosts, checks, severities, verdicts and clock
values) and manual acknowledgements. -/
inductive ReachableStore : List Alert → Prop where
  | init : ReachableStore []
  | eval {s : List Alert} (h c : Nat) (sev : String) (v : Bool × String) (t : Nat) :
      ReachableStore s → ReachableStore (alertTransition s h c sev v t)
  | ack {s : List Alert} (i : Nat) : ReachableStore s → ReachableStore (ackAlert s i)

/-- Number of rows with status open for one (host, check) pair. -/
def openCount (s : List Alert) (h c : Nat) : Nat :=
  ((pairAlerts s h c).filter (fun a => a.status == AlertStatus.opened)).length

/-- Invariant carried through every engine transition: for each (host, check)
pair, every alert row other than the most recent one is not open. -/
def goodTail (s : List Alert) : Prop :=
  ∀ h c : Nat, ∀ a ∈ (pairAlerts s h c).drop 1, a.status ≠ AlertStatus.opened

/-- First open row of a per-pair row list turned resolved; the image of
resolve_alert on the rows of the pair it targets. -/
def resolveFirstOpen (l : List Alert) (msg : String) : List Alert :=
  match l with
  | [] => []
  | a :: rest =>
    if a.status == AlertStatus.opened then
      { a with status := AlertStatus.resolved,
               message := a.message ++ " -> RESOLVED: " ++ msg } :: rest
    else a :: resolveFirstOpen rest msg

theorem find?_eq_filter_head? {α : Type} (p : α → Bool) (l : List α) :
    l.find? p = (l.filter p).head? := by
  induction l with
  | nil => rfl
  | cons a t ih =>
    cases h : p a with
    | true => rw [List.find?_cons_of_pos t h, List.filter_cons_of_pos h, List.head?_cons]
    | false =>
      rw [List.find?_cons_of_neg t (by simp [h]), List.filter_cons_of_neg (by simp [h]), ih]

theorem state_eq_head (s : List Alert) (h c : Nat) :
    get_last_alert_state s h c = (pairAlerts s h c).head?.map Alert.status := by
  rw [get_last_alert_state, pairAlerts, find?_eq_filter_head?]

theorem pairPred_eq_true (h c : Nat) (a : Alert) :
    pairPred h c a = true ↔ a.host_id = h ∧ a.check_id = c := by
  simp [pairPred]

theorem goodTail_nil : goodTail [] := by
  intro h c a ha
  simp [pairAlerts] at ha

theorem pairAlerts_cons (a : Alert) (s : List Alert) (h c : Nat) :
    pairAlerts (a :: s) h c =
      if pairPred h c a = true then a :: pairAlerts s h c else pairAlerts s h c := by
  simp [pairAlerts, List.filter_cons]

theorem pairPred_update_resolved (h c : Nat) (a : Alert) (msg : String) :
    pairPred h c { a with status := AlertStatus.resolved,
                          message := a.message ++ " -> RESOLVED: " ++ msg } =
      pairPred h c a := rfl

theorem pairAlerts_resolve_other (s : List Alert) (h c h' c' : Nat) (msg : String)
    (hne : ¬(h' = h ∧ c' = c)) :
    pairAlerts (resolve_alert s h c msg) h' c' = pairAlerts s h' c' := by
  induction s with
  | nil => rfl
  | cons a rest ih =>
    by_cases hcond : (pairPred h c a && a.status == AlertStatus.opened) = true
    · have hpair : a.host_id = h ∧ a.check_id = c :=
        (pairPred_eq_true h c a).mp ((Bool.and_eq_true _ _).mp hcond).1
      have hnp : ¬ pairPred h' c' a = true := by
        intro hp
        obtain ⟨e1, e2⟩ := (pairPred_eq_true h' c' a).mp hp
        exact hne ⟨e1.symm.trans hpair.1, e2.symm.trans hpair.2⟩
      rw [resolve_alert, if_pos hcond, pairAlerts_cons, pairAlerts_cons,
          pairPred_update_resolved, if_neg hnp, if_neg hnp]
    · rw [resolve_alert, if_neg hcond, pairAlerts_cons, pairAlerts_cons]
      by_cases hp : pairPred h' c' a = true
      · rw [if_pos hp, if_pos hp, ih]
      · rw [if_neg hp, if_neg hp, ih]

theorem pairAlerts_resolve_self (s : List Alert) (h c : Nat) (msg : String) :
    pairAlerts (resolve_alert s h c msg) h c = resolveFirstOpen (pairAlerts s h c) msg := by
  induction s with
  | nil => rfl
  | cons a rest ih =>
    by_cases hcond : (pairPred h c a && a.status == AlertStatus.opened) = true
    · have hp : pairPred h c a = true := ((Bool.and_eq_true _ _).mp hcond).1
      have ho : (a.status == AlertStatus.opened) = true := ((Bool.and_eq_true _ _).mp hcond).2
      rw [resolve_alert, if_pos hcond, pairAlerts_cons, pairAlerts_cons,
          pairPred_update_resolved, if_pos hp, if_pos hp]
      simp only [resolveFirstOpen, if_pos ho]
    · by_cases hp : pairPred h c a = true
      · have ho : ¬ (a.status == AlertStatus.opened) = true := by
          intro ho
          exact hcond (by rw [hp, ho]; rfl)
        rw [resolve_alert, if_neg hcond, pairAlerts_cons, pairAlerts_cons,
            if_pos hp, if_pos hp]
        simp only [resolveFirstOpen, if_neg ho]
        rw [ih]
      · rw [resolve_alert, if_neg hcond, pairAlerts_cons, pairAlerts_cons,
            if_neg hp, if_neg hp, ih]

/-- Relation between an alert row and its possibly acknowledged copy. -/
def ackRel (a b : Alert) : Prop :=
  b = a ∨ b = { a with status := AlertStatus.acknowledged }

theorem ackAlert_forall₂ (s : List Alert) (i : Nat) :
    List.Forall₂ ackRel s (ackAlert s i) := by
  induction s generalizing i with
  | nil => exact List.Forall₂.nil
  | cons a rest ih =>
    cases i with
    | zero =>
      exact List.Forall₂.cons (Or.inr rfl) (List.forall₂_same.mpr fun x _ => Or.inl rfl)
    | succ n => exact List.Forall₂.cons (Or.inl rfl) (ih n)

theorem ackRel_pairPred {a b : Alert} (hab : ackRel a b) (h c : Nat) :
    pairPred h c b = pairPred h c a := by
  cases hab with
  | inl he => rw [he]
  | inr he => rw [he]; rfl

theorem pairAlerts_forall₂ {l l' : List Alert} (hf : List.Forall₂ ackRel l l')
    (h c : Nat) : List.Forall₂ ackRel (pairAlerts l h c) (pairAlerts l' h c) := by
  induction hf with
  | nil => exact List.Forall₂.nil
  | cons hab htail ih =>
    rename_i a b l1 l2
    have hb := ackRel_pairPred hab h c
    by_cases hp : pairPred h c a = true
    · simpa [pairAlerts, List.filter_cons, hp, hb] using List.Forall₂.cons hab ih
    · simpa [pairAlerts, List.filter_cons, hp, hb] using ih

theorem forall₂_drop_one {l l' : List Alert} (hf : List.Forall₂ ackRel l l') :
    List.Forall₂ ackRel (l.drop 1) (l'.drop 1) := by
  cases hf with
  | nil => exact List.Forall₂.nil
  | cons _ h => simpa using h

theorem notOpen_of_forall₂ {l l' : List Alert}
    (hl : ∀ a ∈ l, a.status ≠ AlertStatus.opened)
    (hf : List.Forall₂ ackRel l l') :
    ∀ b ∈ l', b.status ≠ AlertStatus.opened := by
  induction hf with
  | nil => intro b hb; simp at hb
  | cons hab htail ih =>
    rename_i a b l1 l2
    intro x hx
    rcases List.mem_cons.mp hx with hx | hx
    · subst hx
      cases hab with
      | inl he => rw [he]; exact hl a (List.mem_cons_self a l1)
      | inr he => rw [he]; simp
    · exact ih (fun y hy => hl y (List.mem_cons_of_mem _ hy)) x hx

theorem notOpen_pair_of_state (s : List Alert) (h c : Nat) (hs : goodTail s)
    (hlast : get_last_alert_state s h c ≠ some AlertStatus.opened) :
    ∀ a ∈ pairAlerts s h c, a.status ≠ AlertStatus.opened := by
  intro a ha
  rw [state_eq_head] at hlast
  cases hl : pairAlerts s h c with
  | nil => rw [hl] at ha; simp at ha
  | cons b rest =>
    rw [hl] at ha
    rcases List.mem_cons.mp ha with h1 | h1
    · subst h1
      rw [hl] at hlast
      simpa using hlast
    · exact hs h c a (by rw [hl]; simpa using h1)

theorem goodTail_create (s : List Alert) (h c : Nat) (sev msg : String) (t : Nat)
    (hs : goodTail s)
    (hlast : get_last_alert_state s h c ≠ some AlertStatus.opened) :
    goodTail (create_alert s h c sev msg t) := by
  intro h' c' a ha
  rw [create_alert] at ha
  by_cases hp : pairPred h' c'
      { host_id := h, check_id := c, data_id := none, severity := sev, message := msg,
        status := AlertStatus.opened, triggered_at := t } = true
  · have hpq : h = h' ∧ c = c' := by
      have := (pairPred_eq_true h' c' _).mp hp
      exact this
    obtain ⟨rfl, rfl⟩ := hpq
    rw [pairAlerts, List.filter_cons, if_pos hp] at ha
    simp only [List.drop_succ_cons, List.drop_zero] at ha
    exact notOpen_pair_of_state s h c hs hlast a ha
  · rw [pairAlerts, List.filter_cons, if_neg (by simpa using hp)] at ha
    exact hs h' c' a ha

theorem goodTail_resolve (s : List Alert) (h c : Nat) (msg : String)
    (hs : goodTail s)
    (hlast : get_last_alert_state s h c = some AlertStatus.opened) :
    goodTail (resolve_alert s h c msg) := by
  intro h' c' a ha
  by_cases hpq : h' = h ∧ c' = c
  · obtain ⟨rfl, rfl⟩ := hpq
    rw [pairAlerts_resolve_self] at ha
    cases hl : pairAlerts s h' c' with
    | nil => rw [hl] at ha; simp [resolveFirstOpen] at ha
    | cons b rest =>
      have hb : b.status = AlertStatus.opened := by
        rw [state_eq_head, hl] at hlast
        simpa using hlast
      rw [hl, resolveFirstOpen, if_pos (by simp [hb])] at ha
      simp only [List.drop_succ_cons, List.drop_zero] at ha
      exact hs h' c' a (by rw [hl]; simpa using ha)
  · rw [pairAlerts_resolve_other s h c h' c' msg hpq] at ha
    exact hs h' c' a ha

theorem goodTail_ack (s : List Alert) (i : Nat) (hs : goodTail s) :
    goodTail (ackAlert s i) := by
  intro h c
  have hf := pairAlerts_forall₂ (ackAlert_forall₂ s i) h c
  exact notOpen_of_forall₂ (hs h c) (forall₂_drop_one hf)

theorem goodTail_eval (s : List Alert) (h c : Nat) (sev : String) (v : Bool × String)
    (t : Nat) (hs : goodTail s) : goodTail (alertTransition s h c sev v t) := by
  obtain ⟨trig, msg⟩ := v
  cases trig with
  | true =>
    by_cases hlast : get_last_alert_state s h c = some AlertStatus.opened
    · simpa [alertTransition, hlast] using hs
    · simpa [alertTransition, hlast] using goodTail_create s h c sev msg t hs hlast
  | false =>
    by_cases hlast : get_last_alert_state s h c = some AlertStatus.opened
    · simpa [alertTransition, hlast] using goodTail_resolve s h c msg hs hlast
    · simpa [alertTransition, hlast] using hs

theorem goodTail_reachable (s : List Alert) (hs : ReachableStore s) : goodTail s := by
  induction hs with
  | init => exact goodTail_nil
  | eval h c sev v t _ ih => exact goodTail_eval _ h c sev v t ih
  | ack i _ ih => exact goodTail_ack _ i ih

theorem openCount_le_one_of_goodTail (s : List Alert) (h c : Nat) (hs : goodTail s) :
    openCount s h c ≤ 1 := by
  rw [openCount]
  cases hl : pairAlerts s h c with
  | nil => simp
  | cons b rest =>
    have hrest : rest.filter (fun a => a.status == AlertStatus.opened) = [] := by
      rw [List.filter_eq_nil_iff]
      intro a ha
      simpa using hs h c a (by rw [hl]; simpa using ha)
    by_cases hb : (b.status == AlertStatus.opened) = true <;>
      simp [List.filter_cons, hb, hrest]

theorem data_id_resolve (s : List Alert) (h c : Nat) (msg : String) :
    (∀ a ∈ s, a.data_id = none) → ∀ a ∈ resolve_alert s h c msg, a.data_id = none := by
  induction s with
  | nil => intro _ a ha; simp [resolve_alert] at ha
  | cons b rest ih =>
    intro hs a ha
    by_cases hcond : (pairPred h c b && b.status == AlertStatus.opened) = true
    · rw [resolve_alert, if_pos hcond] at ha
      rcases List.mem_cons.mp ha with h1 | h1
      · rw [h1]; exact hs b (List.mem_cons_self b rest)
      · exact hs a (List.mem_cons_of_mem b h1)
    · rw [resolve_alert, if_neg hcond] at ha
      rcases List.mem_cons.mp ha with h1 | h1
      · rw [h1]; exact hs b (List.mem_cons_self b rest)
      · exact ih (fun x hx => hs x (List.mem_cons_of_mem b hx)) a h1

theorem data_id_ack (s : List Alert) (i : Nat) :
    (∀ a ∈ s, a.data_id = none) → ∀ a ∈ ackAlert s i, a.data_id = none := by
  induction s generalizing i with
  | nil => intro _ a ha; simp [ackAlert] at ha
  | cons b rest ih =>
    intro hs a ha
    cases i with
    | zero =>
      simp only [ackAlert] at ha
      rcases List.mem_cons.mp ha with h1 | h1
      · rw [h1]; exact hs b (List.mem_cons_self b rest)
      · exact hs a (List.mem_cons_of_mem b h1)
    | succ n =>
      simp only [ackAlert] at ha
      rcases List.mem_cons.mp ha with h1 | h1
      · rw [h1]; exact hs b (List.mem_cons_self b rest)
      · exact ih n (fun x hx => hs x (List.mem_cons_of_mem b hx)) a h1

theorem data_id_alertTransition (s : List Alert) (h c : Nat) (sev : String)
    (v : Bool × String) (t : Nat) :
    (∀ a ∈ s, a.data_id = none) → ∀ a ∈ alertTransition s h c sev v t, a.data_id = none := by
  intro hs a ha
  obtain ⟨trig, msg⟩ := v
  cases trig with
  | true =>
    by_cases hlast : get_last_alert_state s h c = some AlertStatus.opened
    · simp only [alertTransition, hlast] at ha
      simp at ha
      exact hs a ha
    · simp only [alertTransition] at ha
      rw [if_pos trivial, if_pos hlast] at ha
      rw [create_alert] at ha
      rcases List.mem_cons.mp ha with h1 | h1
      · rw [h1]
      · exact hs a h1
  | false =>
    by_cases hlast : get_last_alert_state s h c = some AlertStatus.opened
    · simp only [alertTransition] at ha
      rw [if_neg (by simp : ¬ false = true), if_pos hlast] at ha
      exact data_id_resolve s h c msg hs a ha
    · simp only [alertTransition] at ha
      rw [if_neg (by simp : ¬ false = true), if_neg hlast] at ha
      exact hs a ha

/-- C10: every alert row in a reachable alert store has data_id NULL: the
evaluation engine calls create_alert without a data_id argument (which
defaults to None), so no engine-created alert ever references the triggering
sample row, even when a latest sample for the host exists. -/
theorem engine_alert_data_id_none (s : List Alert) (hs : ReachableStore s) :
    ∀ a ∈ s, a.data_id = none := by
  induction hs with
  | init => intro a ha; simp at ha
  | eval h c sev v t _ ih => exact data_id_alertTransition _ h c sev v t ih
  | ack i _ ih => exact data_id_ack _ i ih

/-- Reachable store holding exactly the alert created by one triggered pass
for host 1, check 1. -/
def demoStore : List Alert := alertTransition [] 1 1 "L2" (true, "disk critical") 1

/-- Witness for the data_id theorem at the concrete one-row reachable store. -/
theorem engine_alert_data_id_none_witness :
    ({ host_id := 1, check_id := 1, data_id := none, severity := "L2",
       message := "disk critical", status := AlertStatus.opened,
       triggered_at := 1 } : Alert).data_id = none :=
  engine_alert_data_id_none demoStore
    (ReachableStore.eval 1 1 "L2" (true, "disk critical") 1 ReachableStore.init)
    _ (by decide)

/-- C1: in every reachable alert store there is at most one open alert per
(host, check) pair; a pass whose predicate is triggered while the current
state is already open leaves the store unchanged (creates no new row); and
starting from a pair with no alert rows, two consecutive triggered passes
leave exactly one alert row for that pair. -/
theorem at_most_one_open_alert (s : List Alert) (hs : ReachableStore s) :
    (∀ h c : Nat, openCount s h c ≤ 1)
  ∧ (∀ h c : Nat, ∀ sev msg : String, ∀ t : Nat,
       get_last_alert_state s h c = some AlertStatus.opened →
       alertTransition s h c sev (true, msg) t = s)
  ∧ (∀ h c : Nat, ∀ sev msg msg2 : String, ∀ t t2 : Nat,
       pairAlerts s h c = [] →
       (pairAlerts (alertTransition (alertTransition s h c sev (true, msg) t)
           h c sev (true, msg2) t2) h c).length = 1) := by
  refine ⟨fun h c => openCount_le_one_of_goodTail s h c (goodTail_reachable s hs), ?_, ?_⟩
  · intro h c sev msg t hlast
    simp [alertTransition, hlast]
  · intro h c sev msg msg2 t t2 hemp
    have h1 : get_last_alert_state s h c = none := by
      rw [state_eq_head, hemp]; rfl
    have hstep1 : alertTransition s h c sev (true, msg) t = create_alert s h c sev msg t := by
      simp [alertTransition, h1]
    have hpp : pairPred h c
        { host_id := h, check_id := c, data_id := none, severity := sev,
          message := msg, status := AlertStatus.opened, triggered_at := t } = true := by
      simp [pairPred]
    have h2 : pairAlerts (create_alert s h c sev msg t) h c =
        [{ host_id := h, check_id := c, data_id := none, severity := sev,
           message := msg, status := AlertStatus.opened, triggered_at := t }] := by
      rw [create_alert, pairAlerts_cons, if_pos hpp, hemp]
    have h3 : get_last_alert_state (create_alert s h c sev msg t) h c =
        some AlertStatus.opened := by
      rw [state_eq_head, h2]; rfl
    have hstep2 : alertTransition (create_alert s h c sev msg t) h c sev (true, msg2) t2 =
        create_alert s h c sev msg t := by
      simp [alertTransition, h3]
    rw [hstep1, hstep2, h2]
    rfl

/-- Witness for the open-alert uniqueness theorem at concrete stores. -/
theorem at_most_one_open_alert_witness :
    openCount [] 0 0 ≤ 1 ∧
    (pairAlerts (alertTransition (alertTransition [] 1 1 "L2" (true, "disk critical") 1)
        1 1 "L2" (true, "still critical") 2) 1 1).length = 1 :=
  ⟨(at_most_one_open_alert [] ReachableStore.init).1 0 0,
   (at_most_one_open_alert [] ReachableStore.init).2.2 1 1 "L2" "disk critical"
     "still critical" 1 2 rfl⟩

/-- Reachable store holding one manually acknowledged alert for (1, 1). -/
def ackedStore : List Alert := ackAlert (alertTransition [] 1 1 "L2" (true, "disk critical") 1) 0

/-- C2 counterexample: in a reachable store whose current state for (1, 1) is
acknowledged, a pass with a triggered verdict is not a no-op: the engine
creates a new alert row and the store grows from one row to two. -/
theorem acknowledged_not_noop :
    get_last_alert_state ackedStore 1 1 = some AlertStatus.acknowledged ∧
    ackedStore.length = 1 ∧
    (alertTransition ackedStore 1 1 "L2" (true, "disk critical") 2).length = 2 := by
  decide

/-- C2 amended: when the current state for (h, c) is acknowledged, a
non-triggered verdict indeed performs no transition (the acknowledged alert
is never auto-resolved), but a triggered verdict creates a new open alert:
the code treats acknowledged like none or resolved on the trigger side. -/
theorem acknowledged_transitions (s : List Alert) (h c : Nat) (sev : String) (t : Nat)
    (hst : get_last_alert_state s h c = some AlertStatus.acknowledged) :
    (∀ msg, alertTransition s h c sev (true, msg) t = create_alert s h c sev msg t)
  ∧ (∀ msg, alertTransition s h c sev (false, msg) t = s) := by
  constructor <;> intro msg <;> simp [alertTransition, hst]

/-- Witness for the acknowledged-state transition theorem at ackedStore. -/
theorem acknowledged_transitions_witness :
    alertTransition ackedStore 1 1 "L2" (false, "ok") 2 = ackedStore ∧
    alertTransition ackedStore 1 1 "L2" (true, "bad") 2 =
      create_alert ackedStore 1 1 "L2" "bad" 2 :=
  ⟨(acknowledged_transitions ackedStore 1 1 "L2" 2 (by decide)).2 "ok",
   (acknowledged_transitions ackedStore 1 1 "L2" 2 (by decide)).1 "bad"⟩

/-- C6 counterexample: check_host_online for a host that has never reported
data returns a triggered verdict, not the neutral not-triggered verdict the
claim asserts for every predicate of the evaluator set. -/
theorem host_online_no_data_triggered :
    check_host_online [] "web-01" 0 [] = (true, "Host has never reported data") := rfl

/-- C6 amended: the three resource checks (disk, memory, CPU) return a
neutral not-triggered verdict when no sample row exists or when the relevant
metric field of the latest sample is NULL; the host-online check instead
returns a triggered verdict when the host has never reported data. -/
theorem no_data_verdicts (host_name : String) (now : ℚ)
    (params : List (String × Json)) (rows : List DataRow) :
    (check_disk_space [] host_name params).1 = false
  ∧ (∀ r, latestRow rows = some r → r.disk_pct = none →
       (check_disk_space rows host_name params).1 = false)
  ∧ (check_memory_usage [] host_name params).1 = false
  ∧ (∀ r, latestRow rows = some r → r.mem_pct = none →
       (check_memory_usage rows host_name params).1 = false)
  ∧ (check_cpu_usage [] host_name params).1 = false
  ∧ (∀ r, latestRow rows = some r → r.cpu_pct = none →
       (check_cpu_usage rows host_name params).1 = false)
  ∧ (check_host_online [] host_name now params).1 = true := by
  refine ⟨rfl, ?_, rfl, ?_, rfl, ?_, rfl⟩ <;>
    exact fun r hr hnone => by
      simp [check_disk_space, check_memory_usage, check_cpu_usage, hr, hnone]

/-- Sample row whose metric columns are all NULL, for the witness below. -/
def nullRow : DataRow :=
  { collected_at := 10, cpu_pct := none, mem_pct := none, disk_pct := none }

/-- Witness for the no-data verdict theorem at a concrete all-NULL sample. -/
theorem no_data_verdicts_witness :
    (check_disk_space [nullRow] "web-01" []).1 = false ∧
    (check_host_online [] "web-01" 0 []).1 = true :=
  ⟨(no_data_verdicts "web-01" 0 [] [nullRow]).2.1 nullRow rfl rfl,
   (no_data_verdicts "web-01" 0 [] []).2.2.2.2.2.2⟩

/-- C9: the parameter map passed to the evaluator (mergeParams of the
CheckKind default map and the binding override map) agrees key-by-key with
the spec's merge: the override wins on every common top-level key and its
value replaces the default's value wholesale (a shallow merge, not a deep
merge of nested structures); absent maps are treated as empty. -/
theorem mergeParams_override_wins (default_params params_json : Option (List (String × Json)))
    (hnd : ((params_json.getD []).map Prod.fst).Nodup) (k : String) :
    lookupKey (mergeParams default_params params_json) k =
      specMergedLookup default_params params_json k := by
  cases params_json with
  | none => simp [mergeParams, specMergedLookup, lookupKey]
  | some hp =>
    simpa [mergeParams, specMergedLookup] using
      lookupKey_dictUpdate (default_params.getD []) hp k (by simpa using hnd)

/-- CheckKind default parameters used by the merge witness: a nested object
under "limits" and a scalar. -/
def defaultParamsW : List (String × Json) :=
  [("limits", Json.obj [("threshold_pct", Json.num 90)]),
   ("offline_threshold_minutes", Json.num 60)]

/-- Binding override parameters used by the merge witness: a different
nested object under "limits". -/
def overrideParamsW : List (String × Json) :=
  [("limits", Json.obj [("grace", Json.num 5)])]

/-- Witness for the merge theorem: the override's nested object replaces the
default's nested object wholesale and the untouched default key survives. -/
theorem mergeParams_override_wins_witness :
    ((overrideParamsW.map Prod.fst).Nodup ∧
      lookupKey (mergeParams (some defaultParamsW) (some overrideParamsW)) "limits" =
        specMergedLookup (some defaultParamsW) (some overrideParamsW) "limits") ∧
    lookupKey (mergeParams (some defaultParamsW) (some overrideParamsW)) "limits" =
      some (Json.obj [("grace", Json.num 5)]) ∧
    lookupKey (mergeParams (some defaultParamsW) (some overrideParamsW))
        "offline_threshold_minutes" = some (Json.num 60) :=
  ⟨⟨by simp [overrideParamsW],
    mergeParams_override_wins (some defaultParamsW) (some overrideParamsW)
      (by simp [overrideParamsW]) "limits"⟩, rfl, rfl⟩

/-- Python datetime: a wall-clock reading in minutes together with an
optional timezone offset in minutes (none models a naive datetime).
pydantic parses an ISO-8601 value carrying an offset into an aware datetime
that keeps that offset. -/
structure PyDateTime where
  wall : Int
  tzOffset : Option Int
deriving DecidableEq

/-- datetime.now(timezone.utc): an aware datetime with zero offset. -/
def now_utc (wall : Int) : PyDateTime := { wall := wall, tzOffset := some 0 }

/-- Modelled from the spec's words, for comparison: "normalized to UTC, with
timezone offset stripped" means the stored naive value denotes the same
instant in UTC, i.e. the wall-clock reading minus the offset. -/
def utcNormalizedWall (d : PyDateTime) : Int := d.wall - d.tzOffset.getD 0

/-- One row of the hosts table as read by get_host_id_by_key. -/
structure HostRec where
  host_id : Nat
  host_key : String
  is_active : Bool
deriving DecidableEq

/-- Parsed JSON body of a /report request, with the fields of ReportPayload;
a missing field is none. host_key is modelled with the string shape accepted
by its Optional[str] pydantic field. -/
structure RawBody where
  host_key : Option String := none
  collected_at : Option PyDateTime := none
  int_ip : Option String := none
  public_ip : Option String := none
  kernel_name : Option String := none
  kernel_version : Option String := none
  cpu_pct : Option ℚ := none
  mem_used_mb : Option Int := none
  mem_total_mb : Option Int := none
  mem_pct : Option ℚ := none
  disk_used_gb : Option ℚ := none
  disk_total_gb : Option ℚ := none
  disk_pct : Option ℚ := none
  dataset_name : Option String := none
  partition_key : Option String := none
  files_count : Option Int := none
  size_bytes : Option Int := none
  min_event_ts : Option PyDateTime := none
  max_event_ts : Option PyDateTime := none
  extra : Option Json := none

/-- Python str.lower(), mapping every character to lower case. -/
def pyLower (s : String) : String := ⟨s.data.map Char.toLower⟩

/-- Python str.startswith(pfx): the first len(pfx) characters equal pfx. -/
def pyStartsWith (s pfx : String) : Bool := s.data.take pfx.data.length == pfx.data

/-- Python slicing s[n:] by character count. -/
def pyDrop (s : String) (n : Nat) : String := ⟨s.data.drop n⟩

/-- ASCII whitespace recognised by str.strip() (the characters relevant to
header values). -/
def isPySpace (ch : Char) : Bool :=
  ch == ' ' || ch == '\t' || ch == '\n' || ch == '\r'

/-- Python str.strip(): drop whitespace from both ends. -/
def pyStrip (s : String) : String :=
  ⟨((s.data.dropWhile isPySpace).reverse.dropWhile isPySpace).reverse⟩

/-- get_host_key_from_request from app.py: prefer the configured
authorization header value (case-insensitive prefix match, prefix length
stripped, surrounding whitespace stripped), otherwise fall back to the JSON
body's host_key field; None when neither is present. pfx is the configured
AUTH_PREFIX. -/
def get_host_key_from_request (pfx : String) (authHeaderValue : Option String)
    (body : Option RawBody) : Option String :=
  let auth := authHeaderValue.getD ""
  if pyStartsWith (pyLower auth) (pyLower pfx) then
    some (pyStrip (pyDrop auth pfx.data.length))
  else
    match body with
    | some b => b.host_key
    | none => none

/-- Range check performed by pydantic for one Field(ge=0, le=100) percentage
field; yields the field name when the value is out of range. -/
def pctCheck (name : String) (v : Option ℚ) : List String :=
  match v with
  | none => []
  | some q => if q < 0 ∨ 100 < q then [name] else []

/-- Names of the percentage fields of the body violating their [0, 100]
bounds: the field-level detail of a pydantic ValidationError. -/
def pctErrors (b : RawBody) : List String :=
  pctCheck "cpu_pct" b.cpu_pct ++ pctCheck "mem_pct" b.mem_pct ++
    pctCheck "disk_pct" b.disk_pct

/-- ReportPayload.default_collected_at from app.py, Python
`v or datetime.now(timezone.utc)`: a missing collected_at is replaced by the
current UTC time; a present datetime (always truthy) is kept unchanged. -/
def default_collected_at (nowUtc : PyDateTime) (v : Option PyDateTime) : PyDateTime :=
  match v with
  | some dt => dt
  | none => nowUtc

/-- Validated ReportPayload as produced by pydantic from the body. -/
structure ReportPayload where
  host_key : Option String
  collected_at : PyDateTime
  int_ip : Option String
  public_ip : Option String
  kernel_name : Option String
  kernel_version : Option String
  cpu_pct : Option ℚ
  mem_used_mb : Option Int
  mem_total_mb : Option Int
  mem_pct : Option ℚ
  disk_used_gb : Option ℚ
  disk_total_gb : Option ℚ
  disk_pct : Option ℚ
  dataset_name : Option String
  partition_key : Option String
  files_count : Option Int
  size_bytes : Option Int
  min_event_ts : Option PyDateTime
  max_event_ts : Option PyDateTime
  extra : Option Json

/-- Payload built from the body when validation succeeds. -/
def mkPayload (nowUtc : PyDateTime) (b : RawBody) : ReportPayload :=
  { host_key := b.host_key,
    collected_at := default_collected_at nowUtc b.collected_at,
    int_ip := b.int_ip, public_ip := b.public_ip,
    kernel_name := b.kernel_name, kernel_version := b.kernel_version,
    cpu_pct := b.cpu_pct, mem_used_mb := b.mem_used_mb, mem_total_mb := b.mem_total_mb,
    mem_pct := b.mem_pct,
    disk_used_gb := b.disk_used_gb, disk_total_gb := b.disk_total_gb,
    disk_pct := b.disk_pct,
    dataset_name := b.dataset_name, partition_key := b.partition_key,
    files_count := b.files_count, size_bytes := b.size_bytes,
    min_event_ts := b.min_event_ts, max_event_ts := b.max_event_ts,
    extra := b.extra }

/-- ReportPayload.model_validate: fails with the offending field names when
a percentage field is out of range, otherwise yields the payload with
collected_at defaulted. -/
def model_validate (nowUtc : PyDateTime) (b : RawBody) :
    Except (List String) ReportPayload :=
  match pctErrors b with
  | [] => Except.ok (mkPayload nowUtc b)
  | errs => Except.error errs

/-- One row of the incoming_data table as written by insert_incoming_data;
datetime columns are naive wall-clock values. -/
structure SampleRec where
  host_id : Nat
  collected_at : Option Int
  created_at : Int
  int_ip : Option String
  public_ip : Option String
  kernel_name : Option String
  kernel_version : Option String
  cpu_pct : Option ℚ
  mem_used_mb : Option Int
  mem_total_mb : Option Int
  mem_pct : Option ℚ
  disk_used_gb : Option ℚ
  disk_total_gb : Option ℚ
  disk_pct : Option ℚ
  dataset_name : Option String
  partition_key : Option String
  files_count : Option Int
  size_bytes : Option Int
  min_event_ts : Option Int
  max_event_ts : Option Int
  extra : Option Json

/-- insert_incoming_data from app.py: stores the payload as a new row and
returns its id (cur.lastrowid). collected_at is stored as
p.collected_at.replace(tzinfo=None): the wall-clock value with the offset
dropped and no conversion. Python datetimes are always truthy, so the None
branch of the conditional is never taken for a validated payload. -/
def insert_incoming_data (dbNow : Int) (next_id : Nat) (host_id : Nat)
    (p : ReportPayload) : Nat × SampleRec :=
  (next_id,
   { host_id := host_id,
     collected_at := some p.collected_at.wall,
     created_at := dbNow,
     int_ip := p.int_ip, public_ip := p.public_ip,
     kernel_name := p.kernel_name, kernel_version := p.kernel_version,
     cpu_pct := p.cpu_pct, mem_used_mb := p.mem_used_mb, mem_total_mb := p.mem_total_mb,
     mem_pct := p.mem_pct,
     disk_used_gb := p.disk_used_gb, disk_total_gb := p.disk_total_gb,
     disk_pct := p.disk_pct,
     dataset_name := p.dataset_name, partition_key := p.partition_key,
     files_count := p.files_count, size_bytes := p.size_bytes,
     min_event_ts := p.min_event_ts.map PyDateTime.wall,
     max_event_ts := p.max_event_ts.map PyDateTime.wall,
     extra := p.extra })

/-- get_host_id_by_key from app.py: SELECT host_id FROM hosts WHERE
host_key=%s AND is_active=1. -/
def get_host_id_by_key (hosts : List HostRec) (host_key : String) : Option Nat :=
  (hosts.find? (fun h => h.host_key == host_key && h.is_active)).map HostRec.host_id

/-- Python truthiness of the payload's Optional[str] host_key field. -/
def truthyStr (v : Option String) : Bool :=
  match v with
  | none => false
  | some s => s != ""

/-- Responses of the /report endpoint, named by their JSON error code. -/
inductive Resp where
  | ok (data_id : Nat) : Resp
  | missing_host_key : Resp
  | invalid_json : Resp
  | validation_error (details : List String) : Resp
  | host_key_mismatch : Resp
  | invalid_host_key : Resp
  | server_error : Resp
deriving DecidableEq

/-- HTTP status code attached to each response by app.py. -/
def httpStatus : Resp → Nat
  | Resp.ok _ => 200
  | Resp.missing_host_key => 401
  | Resp.invalid_json => 400
  | Resp.validation_error _ => 400
  | Resp.host_key_mismatch => 401
  | Resp.invalid_host_key => 403
  | Resp.server_error => 500

/-- Database-side context of one /report request: hosts table, current
incoming_data table, the two clocks, the next AUTO_INCREMENT id, and failure
flags for the two writes. An exception in either write is caught by the
endpoint's generic handler; autocommit=True means a row written before a
later failure stays committed. -/
structure DbEnv where
  hosts : List HostRec
  samples : List SampleRec
  nowUtcWall : Int
  dbNow : Int
  next_data_id : Nat
  insert_fails : Bool
  last_seen_fails : Bool

/-- The /report endpoint of app.py. pfx is the configured AUTH_PREFIX,
authHeaderValue the value of the configured authorization header (none when
absent), body the parsed JSON body (none when the raw body is not valid
JSON). Returns the response together with the incoming_data table after the
request. -/
def report (pfx : String) (authHeaderValue : Option String) (body : Option RawBody)
    (env : DbEnv) : Resp × List SampleRec :=
  let host_key := get_host_key_from_request pfx authHeaderValue body
  if host_key = none ∨ host_key = some "" then
    (Resp.missing_host_key, env.samples)
  else
    match body with
    | none => (Resp.invalid_json, env.samples)
    | some b =>
      match model_validate (now_utc env.nowUtcWall) b with
      | Except.error details => (Resp.validation_error details, env.samples)
      | Except.ok p =>
        if truthyStr p.host_key = true ∧ p.host_key ≠ host_key then
          (Resp.host_key_mismatch, env.samples)
        else
          match get_host_id_by_key env.hosts (host_key.getD "") with
          | none => (Resp.invalid_host_key, env.samples)
          | some host_id =>
            if host_id = 0 then (Resp.invalid_host_key, env.samples)
            else if env.insert_fails then (Resp.server_error, env.samples)
            else
              let r := insert_incoming_data env.dbNow env.next_data_id host_id p
              if env.last_seen_fails then (Resp.server_error, env.samples ++ [r.2])
              else (Resp.ok r.1, env.samples ++ [r.2])

theorem report_success_path (pfx : String) (auth : Option String) (b : RawBody)
    (env : DbEnv) (k : String) (hid : Nat)
    (hkey : get_host_key_from_request pfx auth (some b) = some k)
    (hk : ¬ k = "")
    (hval : pctErrors b = [])
    (hmm : ¬(truthyStr b.host_key = true ∧ b.host_key ≠ some k))
    (hhost : get_host_id_by_key env.hosts k = some hid)
    (hhid : ¬ hid = 0)
    (hins : env.insert_fails = false) :
    report pfx auth (some b) env =
      (if env.last_seen_fails then Resp.server_error else Resp.ok env.next_data_id,
       env.samples ++ [(insert_incoming_data env.dbNow env.next_data_id hid
          (mkPayload (now_utc env.nowUtcWall) b)).2]) := by
  have hvok : model_validate (now_utc env.nowUtcWall) b =
      Except.ok (mkPayload (now_utc env.nowUtcWall) b) := by
    rw [model_validate, hval]
  have hmm2 : ¬(truthyStr (mkPayload (now_utc env.nowUtcWall) b).host_key = true ∧
      (mkPayload (now_utc env.nowUtcWall) b).host_key ≠ some k) := hmm
  simp only [report, hkey]
  rw [if_neg (by simp [hk])]
  simp only [hvok, Option.getD]
  rw [if_neg hmm2]
  simp only [hhost]
  rw [if_neg hhid]
  simp only [hins, Bool.false_eq_true, if_false]
  by_cases hlf : env.last_seen_fails = true <;> simp [hlf, insert_incoming_data]

theorem report_unknown_host (pfx : String) (auth : Option String) (b : RawBody)
    (env : DbEnv) (k : String)
    (hkey : get_host_key_from_request pfx auth (some b) = some k)
    (hk : ¬ k = "")
    (hb : b.host_key = none)
    (hg : get_host_id_by_key env.hosts k = none) :
    report pfx auth (some b) env =
      (match pctErrors b with
       | [] => Resp.invalid_host_key
       | errs => Resp.validation_error errs, env.samples) := by
  simp only [report, hkey]
  rw [if_neg (by simp [hk])]
  rcases hpe : pctErrors b with _ | ⟨e, es⟩
  · have hvok : model_validate (now_utc env.nowUtcWall) b =
        Except.ok (mkPayload (now_utc env.nowUtcWall) b) := by
      rw [model_validate, hpe]
    have hmm : ¬(truthyStr (mkPayload (now_utc env.nowUtcWall) b).host_key = true ∧
        (mkPayload (now_utc env.nowUtcWall) b).host_key ≠ some k) := by
      rintro ⟨ht, _⟩
      rw [show (mkPayload (now_utc env.nowUtcWall) b).host_key = b.host_key from rfl,
          hb] at ht
      simp [truthyStr] at ht
    simp only [hvok, Option.getD]
    rw [if_neg hmm]
    simp only [hg]
  · have hverr : model_validate (now_utc env.nowUtcWall) b = Except.error (e :: es) := by
      rw [model_validate, hpe]
    simp only [hverr]

/-- Body carrying the credential only in the JSON field, for C3. -/
def c3Body : RawBody := { host_key := some "abc123", cpu_pct := some 50 }

/-- Environment with one active host whose key is abc123. -/
def activeEnv : DbEnv :=
  { hosts := [{ host_id := 1, host_key := "abc123", is_active := true }],
    samples := [], nowUtcWall := 1000, dbNow := 1000, next_data_id := 7,
    insert_fails := false, last_seen_fails := false }

/-- C3 counterexample: with the authorization header entirely absent, a body
carrying a host_key authenticates through the JSON fallback and the request
succeeds; absence of the bearer-style credential therefore does not imply
the missing_host_key response regardless of the body's contents. -/
theorem missing_header_not_401 :
    get_host_key_from_request "Bearer " none (some c3Body) = some "abc123" ∧
    (report "Bearer " none (some c3Body) activeEnv).1 = Resp.ok 7 ∧
    (report "Bearer " none (some c3Body) activeEnv).1 ≠ Resp.missing_host_key := by
  refine ⟨by decide, by decide, by decide⟩

/-- C3 amended: ingest responds missing_host_key (HTTP 401) exactly when the
extracted credential is absent or empty, i.e. the configured header value
lacks the configured prefix AND the JSON body supplies no (or an empty)
host_key; a non-empty body host_key is accepted as a fallback credential. -/
theorem missing_credential_401 (pfx : String) (authHeaderValue : Option String)
    (body : Option RawBody) (env : DbEnv) :
    (report pfx authHeaderValue body env).1 = Resp.missing_host_key ↔
      (get_host_key_from_request pfx authHeaderValue body = none ∨
       get_host_key_from_request pfx authHeaderValue body = some "") := by
  by_cases hc : (get_host_key_from_request pfx authHeaderValue body = none ∨
      get_host_key_from_request pfx authHeaderValue body = some "")
  · simp only [report]
    rw [if_pos hc]
    simp [hc]
  · simp only [report]
    rw [if_neg hc]
    simp only [hc, iff_false]
    intro h
    rcases body with _ | b
    · simp at h
    · rcases hv : model_validate (now_utc env.nowUtcWall) b with ds | p
      · simp only [hv] at h
        simp at h
      · simp only [hv] at h
        by_cases hm : truthyStr p.host_key = true ∧
            p.host_key ≠ get_host_key_from_request pfx authHeaderValue (some b)
        · rw [if_pos hm] at h; simp at h
        · rw [if_neg hm] at h
          rcases hg : get_host_id_by_key env.hosts
              ((get_host_key_from_request pfx authHeaderValue (some b)).getD "")
              with _ | hid
          · simp only [hg] at h
            simp at h
          · simp only [hg] at h
            by_cases h0 : hid = 0
            · rw [if_pos h0] at h; simp at h
            · rw [if_neg h0] at h
              by_cases hif : env.insert_fails = true
              · rw [if_pos hif] at h; simp at h
              · rw [if_neg hif] at h
                by_cases hlf : env.last_seen_fails = true
                · rw [if_pos hlf] at h; simp at h
                · rw [if_neg hlf] at h; simp at h

/-- Environment identical to activeEnv except the last_seen update fails. -/
def lastSeenFailEnv : DbEnv :=
  { hosts := [{ host_id := 1, host_key := "abc123", is_active := true }],
    samples := [], nowUtcWall := 1000, dbNow := 1000, next_data_id := 7,
    insert_fails := false, last_seen_fails := true }

/-- Request body with every field absent. -/
def emptyBody : RawBody := {}

/-- C4 counterexample: the sample insert succeeds (the table grows to one
row, autocommitted), but the failing last_seen update reaches the endpoint's
generic exception handler: the response is server_error with HTTP status
500, not the success response carrying the new sample id. -/
theorem last_seen_failure_not_ok :
    (report "Bearer " (some "Bearer abc123") (some emptyBody) lastSeenFailEnv).1 =
      Resp.server_error ∧
    httpStatus (report "Bearer " (some "Bearer abc123") (some emptyBody)
      lastSeenFailEnv).1 = 500 ∧
    (report "Bearer " (some "Bearer abc123") (some emptyBody) lastSeenFailEnv).2.length = 1 := by
  refine ⟨by decide, by decide, by decide⟩

/-- C4 amended: when the request passes authentication, validation and host
resolution, the sample insert succeeds, and the subsequent last_seen update
fails, the request does not stay successful: it answers server_error (HTTP
500); the inserted sample row remains in the table (autocommit). -/
theorem last_seen_failure_fails_request (pfx : String) (auth : Option String)
    (b : RawBody) (env : DbEnv) (k : String) (hid : Nat)
    (hkey : get_host_key_from_request pfx auth (some b) = some k)
    (hk : ¬ k = "")
    (hval : pctErrors b = [])
    (hmm : ¬(truthyStr b.host_key = true ∧ b.host_key ≠ some k))
    (hhost : get_host_id_by_key env.hosts k = some hid)
    (hhid : ¬ hid = 0)
    (hins : env.insert_fails = false)
    (hlf : env.last_seen_fails = true) :
    (report pfx auth (some b) env).1 = Resp.server_error ∧
    httpStatus (report pfx auth (some b) env).1 = 500 ∧
    (report pfx auth (some b) env).2 =
      env.samples ++ [(insert_incoming_data env.dbNow env.next_data_id hid
        (mkPayload (now_utc env.nowUtcWall) b)).2] := by
  have h := report_success_path pfx auth b env k hid hkey hk hval hmm hhost hhid hins
  rw [h]
  simp [hlf, httpStatus]

/-- Witness for the last_seen-failure theorem at the concrete request. -/
theorem last_seen_failure_fails_request_witness :
    (report "Bearer " (some "Bearer abc123") (some emptyBody) lastSeenFailEnv).1 =
      Resp.server_error :=
  (last_seen_failure_fails_request "Bearer " (some "Bearer abc123") emptyBody
    lastSeenFailEnv "abc123" 1 (by decide) (by decide) (by decide) (by decide)
    (by decide) (by decide) rfl rfl).1

/-- Body whose collected_at is wall-clock 720 at offset +300 minutes (12:00
at UTC+05:00, which is 07:00, i.e. 420 minutes, UTC). -/
def offsetBody : RawBody := { collected_at := some { wall := 720, tzOffset := some 300 } }

/-- C5 counterexample: the stored naive collected_at equals the original
wall-clock reading 720, while the same instant expressed in UTC is 420:
replace(tzinfo=None) strips the offset without converting to UTC, so the
stored value does not denote the same instant in UTC. -/
theorem collected_at_offset_not_converted :
    ((report "Bearer " (some "Bearer abc123") (some offsetBody) activeEnv).2.map
        SampleRec.collected_at) = [some 720] ∧
    utcNormalizedWall { wall := 720, tzOffset := some 300 } = 420 ∧
    (720 : Int) ≠ 420 := by
  refine ⟨by decide, by decide, by decide⟩

/-- C5 amended: for every accepted report, a missing collected_at defaults
to the current UTC time; a present value is stored as its own wall-clock
reading with the timezone offset dropped and no conversion
(replace(tzinfo=None)), so the stored naive value matches the spec's UTC
normalization only when the offset is zero or absent. -/
theorem collected_at_stored (pfx : String) (auth : Option String)
    (b : RawBody) (env : DbEnv) (k : String) (hid : Nat)
    (hkey : get_host_key_from_request pfx auth (some b) = some k)
    (hk : ¬ k = "")
    (hval : pctErrors b = [])
    (hmm : ¬(truthyStr b.host_key = true ∧ b.host_key ≠ some k))
    (hhost : get_host_id_by_key env.hosts k = some hid)
    (hhid : ¬ hid = 0)
    (hins : env.insert_fails = false)
    (hlf : env.last_seen_fails = false) :
    (report pfx auth (some b) env).1 = Resp.ok env.next_data_id ∧
    (report pfx auth (some b) env).2 =
      env.samples ++ [(insert_incoming_data env.dbNow env.next_data_id hid
        (mkPayload (now_utc env.nowUtcWall) b)).2] ∧
    (insert_incoming_data env.dbNow env.next_data_id hid
        (mkPayload (now_utc env.nowUtcWall) b)).2.collected_at =
      some (default_collected_at (now_utc env.nowUtcWall) b.collected_at).wall ∧
    (b.collected_at = none →
      (insert_incoming_data env.dbNow env.next_data_id hid
          (mkPayload (now_utc env.nowUtcWall) b)).2.collected_at =
        some env.nowUtcWall) ∧
    (∀ d, b.collected_at = some d →
      (insert_incoming_data env.dbNow env.next_data_id hid
          (mkPayload (now_utc env.nowUtcWall) b)).2.collected_at = some d.wall) := by
  have h := report_success_path pfx auth b env k hid hkey hk hval hmm hhost hhid hins
  rw [h]
  refine ⟨by simp [hlf], rfl, rfl, ?_, ?_⟩
  · intro h0
    simp [insert_incoming_data, mkPayload, default_collected_at, h0, now_utc]
  · intro d hd
    simp [insert_incoming_data, mkPayload, default_collected_at, hd]

/-- Witness for the collected_at theorem at the offset-carrying body. -/
theorem collected_at_stored_witness :
    (insert_incoming_data activeEnv.dbNow activeEnv.next_data_id 1
        (mkPayload (now_utc activeEnv.nowUtcWall) offsetBody)).2.collected_at =
      some ({ wall := 720, tzOffset := some 300 } : PyDateTime).wall :=
  (collected_at_stored "Bearer " (some "Bearer abc123") offsetBody activeEnv "abc123" 1
    (by decide) (by decide) (by decide) (by decide) (by decide) (by decide) rfl
    rfl).2.2.2.2 { wall := 720, tzOffset := some 300 } (by decide)

/-- C7: two ingestion requests identical except for the carried key, one key
belonging only to an inactive host and the other belonging to no host at
all, receive identical responses; when the body validates, that shared
response is invalid_host_key with HTTP status 403, so a caller cannot
distinguish invalid keys from inactive ones. -/
theorem unknown_host_indistinguishable (pfx : String) (a1 a2 : Option String)
    (k1 k2 : String) (b : RawBody) (env : DbEnv)
    (hex1 : get_host_key_from_request pfx a1 (some b) = some k1) (hk1 : ¬ k1 = "")
    (hex2 : get_host_key_from_request pfx a2 (some b) = some k2) (hk2 : ¬ k2 = "")
    (hb : b.host_key = none)
    (hinact : ∀ hrec ∈ env.hosts, hrec.host_key = k1 → hrec.is_active = false)
    (habsent : ∀ hrec ∈ env.hosts, ¬ hrec.host_key = k2) :
    report pfx a1 (some b) env = report pfx a2 (some b) env ∧
    (pctErrors b = [] →
      (report pfx a1 (some b) env).1 = Resp.invalid_host_key ∧
      httpStatus (report pfx a1 (some b) env).1 = 403) := by
  have hg1 : get_host_id_by_key env.hosts k1 = none := by
    rw [get_host_id_by_key, List.find?_eq_none.mpr]
    · rfl
    · intro x hx
      simp only [Bool.and_eq_true, beq_iff_eq, not_and]
      intro hkx
      rw [hinact x hx hkx]
      simp
  have hg2 : get_host_id_by_key env.hosts k2 = none := by
    rw [get_host_id_by_key, List.find?_eq_none.mpr]
    · rfl
    · intro x hx
      simp only [Bool.and_eq_true, beq_iff_eq, not_and]
      intro hkx
      exact absurd hkx (habsent x hx)
  have e1 := report_unknown_host pfx a1 b env k1 hex1 hk1 hb hg1
  have e2 := report_unknown_host pfx a2 b env k2 hex2 hk2 hb hg2
  refine ⟨e1.trans e2.symm, fun hval => ?_⟩
  rw [e1]
  simp [hval, httpStatus]

/-- Environment whose only host is inactive, for the C7 witness. -/
def inactiveEnv : DbEnv :=
  { hosts := [{ host_id := 5, host_key := "oldhost", is_active := false }],
    samples := [], nowUtcWall := 0, dbNow := 0, next_data_id := 1,
    insert_fails := false, last_seen_fails := false }

/-- Witness comparing an inactive key with a nonexistent key concretely. -/
theorem unknown_host_indistinguishable_witness :
    report "Bearer " (some "Bearer oldhost") (some emptyBody) inactiveEnv =
      report "Bearer " (some "Bearer nosuchkey") (some emptyBody) inactiveEnv ∧
    (report "Bearer " (some "Bearer oldhost") (some emptyBody) inactiveEnv).1 =
      Resp.invalid_host_key :=
  ⟨(unknown_host_indistinguishable "Bearer " (some "Bearer oldhost")
      (some "Bearer nosuchkey") "oldhost" "nosuchkey" emptyBody inactiveEnv
      (by decide) (by decide) (by decide) (by decide) rfl (by decide) (by decide)).1,
   ((unknown_host_indistinguishable "Bearer " (some "Bearer oldhost")
      (some "Bearer nosuchkey") "oldhost" "nosuchkey" emptyBody inactiveEnv
      (by decide) (by decide) (by decide) (by decide) rfl (by decide) (by decide)).2 rfl).1⟩

theorem mem_pctCheck {s name : String} {v : Option ℚ} (h : s ∈ pctCheck name v) :
    s = name ∧ ∃ q, v = some q ∧ (q < 0 ∨ 100 < q) := by
  rcases v with _ | q
  · simp [pctCheck] at h
  · simp only [pctCheck] at h
    by_cases hr : q < 0 ∨ 100 < q
    · rw [if_pos hr] at h
      exact ⟨List.mem_singleton.mp h, q, rfl, hr⟩
    · rw [if_neg hr] at h
      simp at h

theorem report_validation_error (pfx : String) (auth : Option String) (b : RawBody)
    (env : DbEnv) (k : String)
    (hex : get_host_key_from_request pfx auth (some b) = some k) (hk : ¬ k = "")
    (hne : ¬ pctErrors b = []) :
    (report pfx auth (some b) env).1 = Resp.validation_error (pctErrors b) := by
  simp only [report, hex]
  rw [if_neg (by simp [hk])]
  rcases hpe : pctErrors b with _ | ⟨e, es⟩
  · exact absurd hpe hne
  · have hverr : model_validate (now_utc env.nowUtcWall) b = Except.error (e :: es) := by
      rw [model_validate, hpe]
    simp only [hverr]

/-- C8: a report whose cpu_pct (likewise mem_pct, disk_pct) is strictly
above 100 or strictly below 0 is rejected with the validation_error
response (HTTP 400) whose field-level detail names the offending field,
while a value inside the bounds (the boundaries 0 and 100 included)
contributes no validation error for that field. -/
theorem pct_range_validation (pfx : String) (auth : Option String) (b : RawBody)
    (env : DbEnv) (k : String)
    (hex : get_host_key_from_request pfx auth (some b) = some k) (hk : ¬ k = "") :
    (∀ v, b.cpu_pct = some v → (v < 0 ∨ 100 < v) →
       "cpu_pct" ∈ pctErrors b ∧
       (report pfx auth (some b) env).1 = Resp.validation_error (pctErrors b) ∧
       httpStatus (Resp.validation_error (pctErrors b)) = 400)
  ∧ (∀ v, b.mem_pct = some v → (v < 0 ∨ 100 < v) → "mem_pct" ∈ pctErrors b)
  ∧ (∀ v, b.disk_pct = some v → (v < 0 ∨ 100 < v) → "disk_pct" ∈ pctErrors b)
  ∧ (∀ v, b.cpu_pct = some v → 0 ≤ v → v ≤ 100 → "cpu_pct" ∉ pctErrors b)
  ∧ (∀ v, b.mem_pct = some v → 0 ≤ v → v ≤ 100 → "mem_pct" ∉ pctErrors b)
  ∧ (∀ v, b.disk_pct = some v → 0 ≤ v → v ≤ 100 → "disk_pct" ∉ pctErrors b) := by
  have hsplit : ∀ name : String, name ∈ pctErrors b ↔
      (name ∈ pctCheck "cpu_pct" b.cpu_pct ∨ name ∈ pctCheck "mem_pct" b.mem_pct ∨
       name ∈ pctCheck "disk_pct" b.disk_pct) := by
    intro name
    simp [pctErrors, List.mem_append, or_assoc]
  refine ⟨?_, ?_, ?_, ?_, ?_, ?_⟩
  · intro v hv hr
    have hm : "cpu_pct" ∈ pctErrors b := by
      rw [hsplit]
      refine Or.inl ?_
      rw [hv]
      simp only [pctCheck]
      rw [if_pos hr]
      exact List.mem_singleton.mpr rfl
    refine ⟨hm, ?_, rfl⟩
    exact report_validation_error pfx auth b env k hex hk
      (fun h0 => by rw [h0] at hm; simp at hm)
  · intro v hv hr
    rw [hsplit]
    refine Or.inr (Or.inl ?_)
    rw [hv]
    simp only [pctCheck]
    rw [if_pos hr]
    exact List.mem_singleton.mpr rfl
  · intro v hv hr
    rw [hsplit]
    refine Or.inr (Or.inr ?_)
    rw [hv]
    simp only [pctCheck]
    rw [if_pos hr]
    exact List.mem_singleton.mpr rfl
  · intro v hv h0 h100 hmem
    rcases (hsplit "cpu_pct").mp hmem with h1 | h1 | h1
    · obtain ⟨-, q, hq, hrange⟩ := mem_pctCheck h1
      obtain rfl : v = q := Option.some.inj (hv.symm.trans hq)
      rcases hrange with hrange | hrange <;> linarith
    · exact absurd (mem_pctCheck h1).1 (by decide)
    · exact absurd (mem_pctCheck h1).1 (by decide)
  · intro v hv h0 h100 hmem
    rcases (hsplit "mem_pct").mp hmem with h1 | h1 | h1
    · exact absurd (mem_pctCheck h1).1 (by decide)
    · obtain ⟨-, q, hq, hrange⟩ := mem_pctCheck h1
      obtain rfl : v = q := Option.some.inj (hv.symm.trans hq)
      rcases hrange with hrange | hrange <;> linarith
    · exact absurd (mem_pctCheck h1).1 (by decide)
  · intro v hv h0 h100 hmem
    rcases (hsplit "disk_pct").mp hmem with h1 | h1 | h1
    · exact absurd (mem_pctCheck h1).1 (by decide)
    · exact absurd (mem_pctCheck h1).1 (by decide)
    · obtain ⟨-, q, hq, hrange⟩ := mem_pctCheck h1
      obtain rfl : v = q := Option.some.inj (hv.symm.trans hq)
      rcases hrange with hrange | hrange <;> linarith

/-- Body with cpu_pct = 101, rejected by validation. -/
def cpu101Body : RawBody := { cpu_pct := some 101 }

/-- Body with cpu_pct = 100, the accepted boundary value. -/
def cpu100Body : RawBody := { cpu_pct := some 100 }

/-- Witness: 101 is rejected with cpu_pct in the field detail; 100 produces
no cpu_pct error and the whole request succeeds. -/
theorem pct_range_validation_witness :
    ("cpu_pct" ∈ pctErrors cpu101Body ∧
     (report "Bearer " (some "Bearer abc123") (some cpu101Body) activeEnv).1 =
       Resp.validation_error (pctErrors cpu101Body)) ∧
    "cpu_pct" ∉ pctErrors cpu100Body ∧
    (report "Bearer " (some "Bearer abc123") (some cpu100Body) activeEnv).1 = Resp.ok 7 :=
  ⟨⟨((pct_range_validation "Bearer " (some "Bearer abc123") cpu101Body activeEnv
        "abc123" (by decide) (by decide)).1 101 rfl (Or.inr (by norm_num))).1,
    ((pct_range_validation "Bearer " (some "Bearer abc123") cpu101Body activeEnv
        "abc123" (by decide) (by decide)).1 101 rfl (Or.inr (by norm_num))).2.1⟩,
   (pct_range_validation "Bearer " (some "Bearer abc123") cpu100Body activeEnv
      "abc123" (by decide) (by decide)).2.2.2.1 100 rfl (by norm_num) (by norm_num),
   by decide⟩

end Monitoring
